import Mathlib

/-! # CpuFeatures.cpp: native CPU feature detection

A shallow embedding of `app/src/main/cpp/CpuFeatures.cpp`.  The file exports four JNI entry
points.  Each of them reads the `AT_HWCAP2` word of the auxiliary vector with `getauxval`,
tests it against fixed flag constants, prints one line through `__android_log_print` and
returns a `jboolean` (three feature queries) or a `jstring` created with `NewStringUTF`
(the tier selection).

The embedding is state passing: an entry point maps a `World` (what the operating system
reports, and the calls made so far to the outside) to its return value and the next `World`.

Machine integers.  `hwcap2` is an `unsigned long`; the only operation applied to it is `&`
with a positive `int` constant below `2 ^ 31`, which the usual arithmetic conversions turn
into the same `unsigned long` value.  Nothing can overflow, so masks are natural numbers and
every statement below holds for all of them, in particular for every 64-bit value.
-/

namespace CpuFeatures

/-! ## Constants of the source -/

/-- The log tag, `#define LOG_TAG "CpuFeatures"`. -/
def LOG_TAG : String := "CpuFeatures"

/-- ASIMD dot product flag, `#define HWCAP2_ASIMDDP (1 << 20)`: the definition the source
gives under its `#ifndef` guard. -/
def HWCAP2_ASIMDDP : Nat := 1 <<< 20

/-- SVE2 (ARMv9) flag, `#define HWCAP2_SVE2 (1 << 1)`: the definition the source gives under
its `#ifndef` guard. -/
def HWCAP2_SVE2 : Nat := 1 <<< 1

/-- Int8 matrix multiply flag, `#define HWCAP2_I8MM (1 << 13)`: the definition the source
gives under its `#ifndef` guard. -/
def HWCAP2_I8MM : Nat := 1 <<< 13

/-! ## The outside world: JNI, the auxiliary vector, the Android log -/

/-- The `JNIEnv *` argument of an entry point, an uninterpreted handle. -/
abbrev JNIEnv := Nat

/-- The `jclass` argument of an entry point, an uninterpreted handle. -/
abbrev jclass := Nat

/-- JNI booleans: `JNI_TRUE` and `JNI_FALSE` are the only two values the source returns. -/
abbrev jboolean := Bool

/-- The JNI constant `JNI_TRUE`. -/
def JNI_TRUE : jboolean := true

/-- The JNI constant `JNI_FALSE`. -/
def JNI_FALSE : jboolean := false

/-- A Java string, identified with its characters. -/
abbrev jstring := String

/-- Keys of the auxiliary vector the source asks for. -/
inductive AuxType where
  | AT_HWCAP2
  deriving DecidableEq, Repr

/-- Android log priorities the source uses. -/
inductive LogPriority where
  | ANDROID_LOG_INFO
  deriving DecidableEq, Repr

/-- An argument passed after the format string of a log call, by conversion specifier:
`%lx` takes an `unsigned long`, `%d` an `int`, `%s` a C string. -/
inductive FmtArg where
  | ulong (v : Nat)
  | int (v : Int)
  | str (s : String)
  deriving DecidableEq, Repr

/-- A call made to the outside, with its arguments (and, for a read, its result): the libc
read of the auxiliary vector, the Android log call, and the JNI call that creates a Java
string. -/
inductive Event where
  | getauxval (ty : AuxType) (result : Nat)
  | android_log_print (prio : LogPriority) (tag : String) (fmt : String) (args : List FmtArg)
  | NewStringUTF (env : JNIEnv) (bytes : String)
  deriving DecidableEq, Repr

/-- The state an entry point runs in: `hwcap2` is the word the operating system reports for
`AT_HWCAP2` (zero when the query fails), `trace` the outside calls made so far, oldest
first. -/
structure World where
  hwcap2 : Nat
  trace : List Event
  deriving DecidableEq, Repr

/-- The libc call `getauxval(type)`: yields the reported word and records the read. -/
def getauxval : AuxType → World → Nat × World
  | AuxType.AT_HWCAP2, w =>
    (w.hwcap2, ⟨w.hwcap2, w.trace ++ [Event.getauxval AuxType.AT_HWCAP2 w.hwcap2]⟩)

/-- The macro `LOGI(...)`, that is `__android_log_print(ANDROID_LOG_INFO, LOG_TAG, ...)`:
records one log call with its format string and arguments. -/
def LOGI (fmt : String) (args : List FmtArg) (w : World) : World :=
  ⟨w.hwcap2, w.trace ++ [Event.android_log_print LogPriority.ANDROID_LOG_INFO LOG_TAG fmt args]⟩

/-- A C `bool` passed through `...`: promoted to the `int` 1 or 0. -/
def boolToInt (b : Bool) : Int := if b then 1 else 0

/-- The JNI call `env->NewStringUTF(bytes)`: creates the Java string with the characters of
the C string and records the call.  Allocation failure inside the Java runtime is not part
of the model. -/
def NewStringUTF (env : JNIEnv) (bytes : String) (w : World) : jstring × World :=
  (bytes, ⟨w.hwcap2, w.trace ++ [Event.NewStringUTF env bytes]⟩)

/-! ## The four entry points -/

/-- Check if CPU supports dot product instructions: source lines 28-35. -/
def Java_com_example_llamadroid_util_CpuFeatures_hasDotProd
    (_env : JNIEnv) (_clazz : jclass) (w : World) : jboolean × World :=
  let r := getauxval AuxType.AT_HWCAP2 w
  let hwcap2 := r.1
  let has_dotprod : Bool := (hwcap2 &&& HWCAP2_ASIMDDP) != 0
  let w2 := LOGI "HWCAP2: 0x%lx, DotProd: %d"
    [FmtArg.ulong hwcap2, FmtArg.int (boolToInt has_dotprod)] r.2
  (if has_dotprod then JNI_TRUE else JNI_FALSE, w2)

/-- Check if CPU supports ARMv9 features (SVE2): source lines 38-45. -/
def Java_com_example_llamadroid_util_CpuFeatures_hasArmV9
    (_env : JNIEnv) (_clazz : jclass) (w : World) : jboolean × World :=
  let r := getauxval AuxType.AT_HWCAP2 w
  let hwcap2 := r.1
  let has_sve2 : Bool := (hwcap2 &&& HWCAP2_SVE2) != 0
  let w2 := LOGI "HWCAP2: 0x%lx, SVE2 (ARMv9): %d"
    [FmtArg.ulong hwcap2, FmtArg.int (boolToInt has_sve2)] r.2
  (if has_sve2 then JNI_TRUE else JNI_FALSE, w2)

/-- Check if CPU supports i8mm (int8 matrix multiply): source lines 48-54. -/
def Java_com_example_llamadroid_util_CpuFeatures_hasI8mm
    (_env : JNIEnv) (_clazz : jclass) (w : World) : jboolean × World :=
  let r := getauxval AuxType.AT_HWCAP2 w
  let hwcap2 := r.1
  let has_i8mm : Bool := (hwcap2 &&& HWCAP2_I8MM) != 0
  let w2 := LOGI "HWCAP2: 0x%lx, I8MM: %d"
    [FmtArg.ulong hwcap2, FmtArg.int (boolToInt has_i8mm)] r.2
  (if has_i8mm then JNI_TRUE else JNI_FALSE, w2)

/-- Get the best CPU tier for this device: source lines 57-73.  A C condition on an
`unsigned long` holds when the value is not zero. -/
def Java_com_example_llamadroid_util_CpuFeatures_getBestTier
    (env : JNIEnv) (_clazz : jclass) (w : World) : jstring × World :=
  let r := getauxval AuxType.AT_HWCAP2 w
  let hwcap2 := r.1
  let tier : String :=
    if (hwcap2 &&& HWCAP2_SVE2) != 0 then "armv9"
    else if (hwcap2 &&& HWCAP2_ASIMDDP) != 0 then "dotprod"
    else "baseline"
  let w2 := LOGI "Selected CPU tier: %s (HWCAP2: 0x%lx)"
    [FmtArg.str tier, FmtArg.ulong hwcap2] r.2
  NewStringUTF env tier w2

/-! ## The order on tiers -/

/-- The capability order on tier names, baseline < dotprod < armv9, given as a rank.  The
source compares no tiers (they are string literals chosen by an if-chain whose highest tier
is tested first); the rank only serves to state that the selection is monotone.  A string
that is not a tier name has no rank. -/
def tierRank (tier : String) : Option Nat :=
  if tier = "baseline" then some 0
  else if tier = "dotprod" then some 1
  else if tier = "armv9" then some 2
  else none

/-! ## Shared lemmas -/

/-- A single-bit flag meets a mask exactly when the mask has that bit. -/
theorem and_flag_ne_zero_iff (m k : Nat) : (m &&& 1 <<< k) ≠ 0 ↔ m.testBit k = true := by
  rw [Nat.one_shiftLeft, Nat.and_two_pow]
  cases h : m.testBit k
  · simp
  · simp

/-- Returning `JNI_TRUE` or `JNI_FALSE` on a C `bool` returns that boolean. -/
theorem jboolean_of_bool (b : Bool) : (if b then JNI_TRUE else JNI_FALSE) = b := by
  cases b <;> rfl

/-- The value returned by `hasDotProd` in a world, from the word it reports. -/
theorem hasDotProd_fst (env : JNIEnv) (clazz : jclass) (w : World) :
    (Java_com_example_llamadroid_util_CpuFeatures_hasDotProd env clazz w).1
      = ((w.hwcap2 &&& HWCAP2_ASIMDDP) != 0) := by
  exact jboolean_of_bool _

/-- The value returned by `hasArmV9` in a world, from the word it reports. -/
theorem hasArmV9_fst (env : JNIEnv) (clazz : jclass) (w : World) :
    (Java_com_example_llamadroid_util_CpuFeatures_hasArmV9 env clazz w).1
      = ((w.hwcap2 &&& HWCAP2_SVE2) != 0) := by
  exact jboolean_of_bool _

/-- The value returned by `hasI8mm` in a world, from the word it reports. -/
theorem hasI8mm_fst (env : JNIEnv) (clazz : jclass) (w : World) :
    (Java_com_example_llamadroid_util_CpuFeatures_hasI8mm env clazz w).1
      = ((w.hwcap2 &&& HWCAP2_I8MM) != 0) := by
  exact jboolean_of_bool _

/-- The value returned by `getBestTier` in a world, from the word it reports. -/
theorem getBestTier_fst (env : JNIEnv) (clazz : jclass) (w : World) :
    (Java_com_example_llamadroid_util_CpuFeatures_getBestTier env clazz w).1
      = (if (w.hwcap2 &&& HWCAP2_SVE2) != 0 then "armv9"
         else if (w.hwcap2 &&& HWCAP2_ASIMDDP) != 0 then "dotprod" else "baseline") := by
  rfl

/-- The SVE2 test of the source, read as a test of bit 1. -/
theorem sve2_test (m : Nat) : ((m &&& HWCAP2_SVE2) != 0) = m.testBit 1 := by
  have h := and_flag_ne_zero_iff m 1
  unfold HWCAP2_SVE2
  cases hb : m.testBit 1 <;> simp_all

/-- The dot product test of the source, read as a test of bit 20. -/
theorem asimddp_test (m : Nat) : ((m &&& HWCAP2_ASIMDDP) != 0) = m.testBit 20 := by
  have h := and_flag_ne_zero_iff m 20
  unfold HWCAP2_ASIMDDP
  cases hb : m.testBit 20 <;> simp_all

/-- The i8mm test of the source, read as a test of bit 13. -/
theorem i8mm_test (m : Nat) : ((m &&& HWCAP2_I8MM) != 0) = m.testBit 13 := by
  have h := and_flag_ne_zero_iff m 13
  unfold HWCAP2_I8MM
  cases hb : m.testBit 13 <;> simp_all

/-! ## Tier selection by flag (C1, C2, C3) -/

/-- C1: in every world whose capability mask has the SVE2 bit (bit 1) set, `getBestTier`
returns "armv9", whatever the other bits of the mask are. -/
theorem getBestTier_sve2_armv9 (env : JNIEnv) (clazz : jclass) (w : World)
    (h1 : w.hwcap2.testBit 1 = true) :
    (Java_com_example_llamadroid_util_CpuFeatures_getBestTier env clazz w).1 = "armv9" := by
  rw [getBestTier_fst, sve2_test, h1]
  rfl

/-- C1, at the mask 0x00100002: SVE2 bit and dot product bit both set, the tier is
"armv9". -/
theorem getBestTier_sve2_armv9_witness :
    Nat.testBit 0x00100002 1 = true ∧ Nat.testBit 0x00100002 20 = true ∧
    (Java_com_example_llamadroid_util_CpuFeatures_getBestTier 0 0 ⟨0x00100002, []⟩).1
      = "armv9" :=
  ⟨by decide, by decide, getBestTier_sve2_armv9 0 0 ⟨0x00100002, []⟩ (by decide)⟩

/-- C2: in every world whose capability mask has the dot product bit (bit 20) set and the
SVE2 bit (bit 1) clear, `getBestTier` returns "dotprod". -/
theorem getBestTier_dotprod (env : JNIEnv) (clazz : jclass) (w : World)
    (h20 : w.hwcap2.testBit 20 = true) (h1 : w.hwcap2.testBit 1 = false) :
    (Java_com_example_llamadroid_util_CpuFeatures_getBestTier env clazz w).1 = "dotprod" := by
  rw [getBestTier_fst, sve2_test, asimddp_test, h1, h20]
  rfl

/-- C2, at the mask 0x00102000: dot product and i8mm bits set, SVE2 bit clear, the tier is
"dotprod". -/
theorem getBestTier_dotprod_witness :
    Nat.testBit 0x00102000 20 = true ∧ Nat.testBit 0x00102000 1 = false ∧
    (Java_com_example_llamadroid_util_CpuFeatures_getBestTier 0 0 ⟨0x00102000, []⟩).1
      = "dotprod" :=
  ⟨by decide, by decide,
    getBestTier_dotprod 0 0 ⟨0x00102000, []⟩ (by decide) (by decide)⟩

/-- C3: in every world whose capability mask has neither the SVE2 bit (bit 1) nor the dot
product bit (bit 20) set, `getBestTier` returns "baseline"; the i8mm bit plays no part, so
this covers every mask with none of the three recognised flags. -/
theorem getBestTier_baseline (env : JNIEnv) (clazz : jclass) (w : World)
    (h1 : w.hwcap2.testBit 1 = false) (h20 : w.hwcap2.testBit 20 = false) :
    (Java_com_example_llamadroid_util_CpuFeatures_getBestTier env clazz w).1 = "baseline" := by
  rw [getBestTier_fst, sve2_test, asimddp_test, h1, h20]
  rfl

/-- C3, at the mask 0x00000004: none of SVE2, dot product and i8mm set (an unrecognised bit
is), the tier is "baseline". -/
theorem getBestTier_baseline_witness :
    Nat.testBit 0x00000004 1 = false ∧ Nat.testBit 0x00000004 20 = false ∧
    Nat.testBit 0x00000004 13 = false ∧
    (Java_com_example_llamadroid_util_CpuFeatures_getBestTier 0 0 ⟨0x00000004, []⟩).1
      = "baseline" :=
  ⟨by decide, by decide, by decide,
    getBestTier_baseline 0 0 ⟨0x00000004, []⟩ (by decide) (by decide)⟩

/-- Bits of `e` outside a flag do not change what the flag test sees. -/
theorem or_and_flag (m e f : Nat) (h : e &&& f = 0) : (m ||| e) &&& f = m &&& f := by
  rw [Nat.and_comm, Nat.and_or_distrib_left, Nat.and_comm f e, h, Nat.or_zero, Nat.and_comm]

/-! ## The feature queries (C4) and the range of the tier (C5) -/

/-- C4: each feature query is the intersection test of the mask with its flag: `hasDotProd`
returns true exactly when `m AND 1<<20` is not zero, `hasArmV9` exactly when `m AND 1<<1` is
not zero, `hasI8mm` exactly when `m AND 1<<13` is not zero, and each returns false exactly
when that intersection is zero. -/
theorem feature_queries_intersection (env : JNIEnv) (clazz : jclass) (w : World) :
    (((Java_com_example_llamadroid_util_CpuFeatures_hasDotProd env clazz w).1 = true
        ↔ w.hwcap2 &&& 1 <<< 20 ≠ 0) ∧
      ((Java_com_example_llamadroid_util_CpuFeatures_hasDotProd env clazz w).1 = false
        ↔ w.hwcap2 &&& 1 <<< 20 = 0)) ∧
    (((Java_com_example_llamadroid_util_CpuFeatures_hasArmV9 env clazz w).1 = true
        ↔ w.hwcap2 &&& 1 <<< 1 ≠ 0) ∧
      ((Java_com_example_llamadroid_util_CpuFeatures_hasArmV9 env clazz w).1 = false
        ↔ w.hwcap2 &&& 1 <<< 1 = 0)) ∧
    (((Java_com_example_llamadroid_util_CpuFeatures_hasI8mm env clazz w).1 = true
        ↔ w.hwcap2 &&& 1 <<< 13 ≠ 0) ∧
      ((Java_com_example_llamadroid_util_CpuFeatures_hasI8mm env clazz w).1 = false
        ↔ w.hwcap2 &&& 1 <<< 13 = 0)) := by
  rw [hasDotProd_fst, hasArmV9_fst, hasI8mm_fst]
  unfold HWCAP2_ASIMDDP HWCAP2_SVE2 HWCAP2_I8MM
  simp only [bne_iff_ne, ne_eq, bne_eq_false_iff_eq, and_self]

/-- C5: `getBestTier` is total: in every world, for every mask, it returns a value and a next
world, and the value is one of the three strings "armv9", "dotprod", "baseline". -/
theorem getBestTier_total (env : JNIEnv) (clazz : jclass) (w : World) :
    ∃ (tier : jstring) (w2 : World),
      Java_com_example_llamadroid_util_CpuFeatures_getBestTier env clazz w = (tier, w2) ∧
      (tier = "armv9" ∨ tier = "dotprod" ∨ tier = "baseline") := by
  refine ⟨(Java_com_example_llamadroid_util_CpuFeatures_getBestTier env clazz w).1,
    (Java_com_example_llamadroid_util_CpuFeatures_getBestTier env clazz w).2, rfl, ?_⟩
  rw [getBestTier_fst]
  split
  · exact Or.inl rfl
  · split
    · exact Or.inr (Or.inl rfl)
    · exact Or.inr (Or.inr rfl)

/-! ## Scenarios (C6, C7, C8) -/

/-- C6: for the mask 0x00100000 (only the dot product bit), `hasDotProd` returns true,
`hasArmV9` returns false and `getBestTier` returns "dotprod". -/
theorem scenario_dotprod_only (env : JNIEnv) (clazz : jclass) (t : List Event) :
    (Java_com_example_llamadroid_util_CpuFeatures_hasDotProd env clazz ⟨0x00100000, t⟩).1
      = true ∧
    (Java_com_example_llamadroid_util_CpuFeatures_hasArmV9 env clazz ⟨0x00100000, t⟩).1
      = false ∧
    (Java_com_example_llamadroid_util_CpuFeatures_getBestTier env clazz ⟨0x00100000, t⟩).1
      = "dotprod" := by
  rw [hasDotProd_fst, hasArmV9_fst, getBestTier_fst]
  dsimp only
  decide

/-- C7: for the mask 0x00000002 (the SVE2 bit), `hasArmV9` returns true and `getBestTier`
returns "armv9". -/
theorem scenario_sve2 (env : JNIEnv) (clazz : jclass) (t : List Event) :
    (Java_com_example_llamadroid_util_CpuFeatures_hasArmV9 env clazz ⟨0x00000002, t⟩).1
      = true ∧
    (Java_com_example_llamadroid_util_CpuFeatures_getBestTier env clazz ⟨0x00000002, t⟩).1
      = "armv9" := by
  rw [hasArmV9_fst, getBestTier_fst]
  dsimp only
  decide

/-- C8: for the zero mask, the word reported when the query to the operating system fails,
`hasDotProd`, `hasArmV9` and `hasI8mm` all return false and `getBestTier` returns
"baseline": plain values, with no failure handed to the caller. -/
theorem scenario_zero_mask (env : JNIEnv) (clazz : jclass) (t : List Event) :
    (Java_com_example_llamadroid_util_CpuFeatures_hasDotProd env clazz ⟨0, t⟩).1 = false ∧
    (Java_com_example_llamadroid_util_CpuFeatures_hasArmV9 env clazz ⟨0, t⟩).1 = false ∧
    (Java_com_example_llamadroid_util_CpuFeatures_hasI8mm env clazz ⟨0, t⟩).1 = false ∧
    (Java_com_example_llamadroid_util_CpuFeatures_getBestTier env clazz ⟨0, t⟩).1
      = "baseline" := by
  rw [hasDotProd_fst, hasArmV9_fst, hasI8mm_fst, getBestTier_fst]
  dsimp only
  decide

/-! ## Relational properties of the queries (C9, C10) -/

/-- C9: a feature query does not see unrelated bits: for every mask `m` and every set of
extra bits `e` that misses the flag of the query (dot product `1<<20`, SVE2 `1<<1`, i8mm
`1<<13`), the query returns on `m OR e` what it returns on `m`. -/
theorem feature_query_unrelated_bits (env : JNIEnv) (clazz : jclass) (m e : Nat)
    (t : List Event) :
    (e &&& 1 <<< 20 = 0 →
      (Java_com_example_llamadroid_util_CpuFeatures_hasDotProd env clazz ⟨m ||| e, t⟩).1
        = (Java_com_example_llamadroid_util_CpuFeatures_hasDotProd env clazz ⟨m, t⟩).1) ∧
    (e &&& 1 <<< 1 = 0 →
      (Java_com_example_llamadroid_util_CpuFeatures_hasArmV9 env clazz ⟨m ||| e, t⟩).1
        = (Java_com_example_llamadroid_util_CpuFeatures_hasArmV9 env clazz ⟨m, t⟩).1) ∧
    (e &&& 1 <<< 13 = 0 →
      (Java_com_example_llamadroid_util_CpuFeatures_hasI8mm env clazz ⟨m ||| e, t⟩).1
        = (Java_com_example_llamadroid_util_CpuFeatures_hasI8mm env clazz ⟨m, t⟩).1) := by
  refine ⟨fun h => ?_, fun h => ?_, fun h => ?_⟩
  · rw [hasDotProd_fst, hasDotProd_fst]
    show ((m ||| e) &&& HWCAP2_ASIMDDP != 0) = (m &&& HWCAP2_ASIMDDP != 0)
    rw [or_and_flag m e HWCAP2_ASIMDDP h]
  · rw [hasArmV9_fst, hasArmV9_fst]
    show ((m ||| e) &&& HWCAP2_SVE2 != 0) = (m &&& HWCAP2_SVE2 != 0)
    rw [or_and_flag m e HWCAP2_SVE2 h]
  · rw [hasI8mm_fst, hasI8mm_fst]
    show ((m ||| e) &&& HWCAP2_I8MM != 0) = (m &&& HWCAP2_I8MM != 0)
    rw [or_and_flag m e HWCAP2_I8MM h]

/-- C9, at `m = 0x00100000` and `e = 0xFFFFFFFFFFEFDFFD` (every bit of a 64-bit word but
the three flags): the three queries return on `m OR e` what they return on `m`. -/
theorem feature_query_unrelated_bits_witness :
    (0xFFFFFFFFFFEFDFFD &&& 1 <<< 20 = 0 ∧ 0xFFFFFFFFFFEFDFFD &&& 1 <<< 1 = 0 ∧
      0xFFFFFFFFFFEFDFFD &&& 1 <<< 13 = 0) ∧
    (Java_com_example_llamadroid_util_CpuFeatures_hasDotProd 0 0
        ⟨0x00100000 ||| 0xFFFFFFFFFFEFDFFD, []⟩).1
      = (Java_com_example_llamadroid_util_CpuFeatures_hasDotProd 0 0 ⟨0x00100000, []⟩).1 ∧
    (Java_com_example_llamadroid_util_CpuFeatures_hasArmV9 0 0
        ⟨0x00100000 ||| 0xFFFFFFFFFFEFDFFD, []⟩).1
      = (Java_com_example_llamadroid_util_CpuFeatures_hasArmV9 0 0 ⟨0x00100000, []⟩).1 ∧
    (Java_com_example_llamadroid_util_CpuFeatures_hasI8mm 0 0
        ⟨0x00100000 ||| 0xFFFFFFFFFFEFDFFD, []⟩).1
      = (Java_com_example_llamadroid_util_CpuFeatures_hasI8mm 0 0 ⟨0x00100000, []⟩).1 :=
  ⟨by decide,
    (feature_query_unrelated_bits 0 0 0x00100000 0xFFFFFFFFFFEFDFFD []).1 (by decide),
    (feature_query_unrelated_bits 0 0 0x00100000 0xFFFFFFFFFFEFDFFD []).2.1 (by decide),
    (feature_query_unrelated_bits 0 0 0x00100000 0xFFFFFFFFFFEFDFFD []).2.2 (by decide)⟩

/-- C10: determinism: two invocations of the same entry point that observe the same
capability mask return the same result, whatever the `JNIEnv` and `jclass` handles are and
whatever calls were made before (the traces of the two worlds are arbitrary); this holds
for `hasDotProd`, `hasArmV9`, `hasI8mm` and `getBestTier`. -/
theorem same_mask_same_result (env1 env2 : JNIEnv) (clazz1 clazz2 : jclass) (w1 w2 : World)
    (h : w1.hwcap2 = w2.hwcap2) :
    (Java_com_example_llamadroid_util_CpuFeatures_hasDotProd env1 clazz1 w1).1
      = (Java_com_example_llamadroid_util_CpuFeatures_hasDotProd env2 clazz2 w2).1 ∧
    (Java_com_example_llamadroid_util_CpuFeatures_hasArmV9 env1 clazz1 w1).1
      = (Java_com_example_llamadroid_util_CpuFeatures_hasArmV9 env2 clazz2 w2).1 ∧
    (Java_com_example_llamadroid_util_CpuFeatures_hasI8mm env1 clazz1 w1).1
      = (Java_com_example_llamadroid_util_CpuFeatures_hasI8mm env2 clazz2 w2).1 ∧
    (Java_com_example_llamadroid_util_CpuFeatures_getBestTier env1 clazz1 w1).1
      = (Java_com_example_llamadroid_util_CpuFeatures_getBestTier env2 clazz2 w2).1 := by
  simp only [hasDotProd_fst, hasArmV9_fst, hasI8mm_fst, getBestTier_fst, h, and_self]

/-- C10, at the mask 0x00100002: the second world is the one an earlier call to
`getBestTier` leaves behind, so the second invocations run after a first one, with other
handles, and return what the first ones return. -/
theorem same_mask_same_result_witness :
    (⟨0x00100002, []⟩ : World).hwcap2
      = (Java_com_example_llamadroid_util_CpuFeatures_getBestTier 0 0
          ⟨0x00100002, []⟩).2.hwcap2 ∧
    (Java_com_example_llamadroid_util_CpuFeatures_hasDotProd 0 0 ⟨0x00100002, []⟩).1
      = (Java_com_example_llamadroid_util_CpuFeatures_hasDotProd 7 9
          (Java_com_example_llamadroid_util_CpuFeatures_getBestTier 0 0
            ⟨0x00100002, []⟩).2).1 ∧
    (Java_com_example_llamadroid_util_CpuFeatures_hasArmV9 0 0 ⟨0x00100002, []⟩).1
      = (Java_com_example_llamadroid_util_CpuFeatures_hasArmV9 7 9
          (Java_com_example_llamadroid_util_CpuFeatures_getBestTier 0 0
            ⟨0x00100002, []⟩).2).1 ∧
    (Java_com_example_llamadroid_util_CpuFeatures_hasI8mm 0 0 ⟨0x00100002, []⟩).1
      = (Java_com_example_llamadroid_util_CpuFeatures_hasI8mm 7 9
          (Java_com_example_llamadroid_util_CpuFeatures_getBestTier 0 0
            ⟨0x00100002, []⟩).2).1 ∧
    (Java_com_example_llamadroid_util_CpuFeatures_getBestTier 0 0 ⟨0x00100002, []⟩).1
      = (Java_com_example_llamadroid_util_CpuFeatures_getBestTier 7 9
          (Java_com_example_llamadroid_util_CpuFeatures_getBestTier 0 0
            ⟨0x00100002, []⟩).2).1 :=
  ⟨rfl, same_mask_same_result 0 7 0 9 ⟨0x00100002, []⟩
    (Java_com_example_llamadroid_util_CpuFeatures_getBestTier 0 0 ⟨0x00100002, []⟩).2 rfl⟩

/-- A bit of a mask is a bit of every mask that contains it. -/
theorem testBit_of_subset (m m2 k : Nat) (h : m &&& m2 = m) (hk : m.testBit k = true) :
    m2.testBit k = true := by
  have hand : (m &&& m2).testBit k = true := by rw [h]; exact hk
  rw [Nat.testBit_and] at hand
  simp only [Bool.and_eq_true] at hand
  exact hand.2

/-! ## The tier against the queries and against the mask (C11, C12, C13) -/

/-- C11: `getBestTier` agrees with the boolean queries on the same mask: it returns "armv9"
exactly when `hasArmV9` is true, "dotprod" exactly when `hasDotProd` is true and `hasArmV9`
is false, and "baseline" exactly when `hasDotProd` and `hasArmV9` are both false. -/
theorem getBestTier_agrees_with_queries (env : JNIEnv) (clazz : jclass) (w : World) :
    ((Java_com_example_llamadroid_util_CpuFeatures_getBestTier env clazz w).1 = "armv9"
      ↔ (Java_com_example_llamadroid_util_CpuFeatures_hasArmV9 env clazz w).1 = true) ∧
    ((Java_com_example_llamadroid_util_CpuFeatures_getBestTier env clazz w).1 = "dotprod"
      ↔ ((Java_com_example_llamadroid_util_CpuFeatures_hasDotProd env clazz w).1 = true ∧
         (Java_com_example_llamadroid_util_CpuFeatures_hasArmV9 env clazz w).1 = false)) ∧
    ((Java_com_example_llamadroid_util_CpuFeatures_getBestTier env clazz w).1 = "baseline"
      ↔ ((Java_com_example_llamadroid_util_CpuFeatures_hasDotProd env clazz w).1 = false ∧
         (Java_com_example_llamadroid_util_CpuFeatures_hasArmV9 env clazz w).1 = false)) := by
  rw [getBestTier_fst, hasArmV9_fst, hasDotProd_fst]
  cases (w.hwcap2 &&& HWCAP2_SVE2 != 0) <;> cases (w.hwcap2 &&& HWCAP2_ASIMDDP != 0) <;>
    decide

/-- C12: tier selection is monotone in the mask: when every bit set in `m` is set in `m2`
(`m AND m2 = m`), both tiers have a rank in the order baseline < dotprod < armv9 and the
rank of the tier for `m2` is at least the rank of the tier for `m`. -/
theorem getBestTier_monotone (env env2 : JNIEnv) (clazz clazz2 : jclass) (m m2 : Nat)
    (t t2 : List Event) (h : m &&& m2 = m) :
    ∃ r r2 : Nat,
      tierRank (Java_com_example_llamadroid_util_CpuFeatures_getBestTier env clazz ⟨m, t⟩).1
        = some r ∧
      tierRank (Java_com_example_llamadroid_util_CpuFeatures_getBestTier env2 clazz2 ⟨m2, t2⟩).1
        = some r2 ∧
      r ≤ r2 := by
  have h1 := testBit_of_subset m m2 1 h
  have h20 := testBit_of_subset m m2 20 h
  rw [getBestTier_fst, getBestTier_fst]
  dsimp only
  rw [sve2_test, sve2_test, asimddp_test, asimddp_test]
  cases hm1 : m.testBit 1 <;> cases hm20 : m.testBit 20 <;>
    cases hn1 : m2.testBit 1 <;> cases hn20 : m2.testBit 20 <;>
    simp_all <;> decide

/-- C12, at `m = 0x00100000` and `m2 = 0x00100002`: adding the SVE2 bit raises the tier from
"dotprod" (rank 1) to "armv9" (rank 2). -/
theorem getBestTier_monotone_witness :
    0x00100000 &&& 0x00100002 = 0x00100000 ∧
    tierRank (Java_com_example_llamadroid_util_CpuFeatures_getBestTier 0 0
      ⟨0x00100000, []⟩).1 = some 1 ∧
    tierRank (Java_com_example_llamadroid_util_CpuFeatures_getBestTier 0 0
      ⟨0x00100002, []⟩).1 = some 2 ∧
    ∃ r r2 : Nat,
      tierRank (Java_com_example_llamadroid_util_CpuFeatures_getBestTier 0 0
        ⟨0x00100000, []⟩).1 = some r ∧
      tierRank (Java_com_example_llamadroid_util_CpuFeatures_getBestTier 0 0
        ⟨0x00100002, []⟩).1 = some r2 ∧
      r ≤ r2 :=
  ⟨by decide, by decide, by decide,
    getBestTier_monotone 0 0 0 0 0x00100000 0x00100002 [] [] (by decide)⟩

/-- C13: `getBestTier` depends only on bits 1 and 20 of the mask: two masks that agree on
bit 1 (SVE2) and on bit 20 (dot product) get the same tier, whatever their other bits (the
i8mm bit 13 and the bits above bit 31 among them), the handles and the earlier calls are. -/
theorem getBestTier_only_bits_1_20 (env env2 : JNIEnv) (clazz clazz2 : jclass) (m m2 : Nat)
    (t t2 : List Event) (h1 : m.testBit 1 = m2.testBit 1)
    (h20 : m.testBit 20 = m2.testBit 20) :
    (Java_com_example_llamadroid_util_CpuFeatures_getBestTier env clazz ⟨m, t⟩).1
      = (Java_com_example_llamadroid_util_CpuFeatures_getBestTier env2 clazz2 ⟨m2, t2⟩).1 := by
  rw [getBestTier_fst, getBestTier_fst]
  dsimp only
  rw [sve2_test, sve2_test, asimddp_test, asimddp_test, h1, h20]

/-- C13, at `m = 0x00100000` and `m2 = 0xFFFFFFFF00102000`: the masks differ in the i8mm bit
and in every bit from 32 to 63, agree on bits 1 and 20, and get the same tier. -/
theorem getBestTier_only_bits_1_20_witness :
    (Nat.testBit 0x00100000 1 = Nat.testBit 0xFFFFFFFF00102000 1 ∧
      Nat.testBit 0x00100000 20 = Nat.testBit 0xFFFFFFFF00102000 20) ∧
    (Nat.testBit 0x00100000 13 = false ∧ Nat.testBit 0xFFFFFFFF00102000 13 = true ∧
      Nat.testBit 0x00100000 32 = false ∧ Nat.testBit 0xFFFFFFFF00102000 32 = true) ∧
    (Java_com_example_llamadroid_util_CpuFeatures_getBestTier 0 0 ⟨0x00100000, []⟩).1
      = (Java_com_example_llamadroid_util_CpuFeatures_getBestTier 0 0
          ⟨0xFFFFFFFF00102000, []⟩).1 :=
  ⟨by decide, by decide,
    getBestTier_only_bits_1_20 0 0 0 0 0x00100000 0xFFFFFFFF00102000 [] []
      (by decide) (by decide)⟩

/-! ## Independence of the flags (C14) -/

/-- C14: the three recognised flags are the single bits 20, 1 and 13, pairwise disjoint, and
the three queries are independent: for every triple of booleans there is a 64-bit mask on
which `hasDotProd`, `hasArmV9` and `hasI8mm` return exactly that triple. -/
theorem flags_disjoint_queries_independent :
    (HWCAP2_ASIMDDP = 2 ^ 20 ∧ HWCAP2_SVE2 = 2 ^ 1 ∧ HWCAP2_I8MM = 2 ^ 13) ∧
    (HWCAP2_ASIMDDP &&& HWCAP2_SVE2 = 0 ∧ HWCAP2_ASIMDDP &&& HWCAP2_I8MM = 0 ∧
      HWCAP2_SVE2 &&& HWCAP2_I8MM = 0) ∧
    ∀ a b c : Bool, ∃ m : Nat, m < 2 ^ 64 ∧
      ∀ (env : JNIEnv) (clazz : jclass) (t : List Event),
        (Java_com_example_llamadroid_util_CpuFeatures_hasDotProd env clazz ⟨m, t⟩).1 = a ∧
        (Java_com_example_llamadroid_util_CpuFeatures_hasArmV9 env clazz ⟨m, t⟩).1 = b ∧
        (Java_com_example_llamadroid_util_CpuFeatures_hasI8mm env clazz ⟨m, t⟩).1 = c := by
  refine ⟨by decide, by decide, fun a b c => ?_⟩
  refine ⟨(if a then HWCAP2_ASIMDDP else 0) ||| (if b then HWCAP2_SVE2 else 0)
    ||| (if c then HWCAP2_I8MM else 0), ?_, fun env clazz t => ?_⟩
  · cases a <;> cases b <;> cases c <;> decide
  · rw [hasDotProd_fst, hasArmV9_fst, hasI8mm_fst]
    dsimp only
    cases a <;> cases b <;> cases c <;> decide

/-! ## Outside calls of a call to an entry point (C15) -/

/-- C15, as stated, fails for `getBestTier`: at the zero mask with an empty trace its outside
calls are the read, the log call and a third call, `NewStringUTF`, that creates the returned
Java string; so the trace is not one read followed by one log call, whatever their
arguments. -/
theorem getBestTier_third_outside_call :
    (Java_com_example_llamadroid_util_CpuFeatures_getBestTier 0 0 ⟨0, []⟩).2.trace
      = [Event.getauxval AuxType.AT_HWCAP2 0,
         Event.android_log_print LogPriority.ANDROID_LOG_INFO "CpuFeatures"
           "Selected CPU tier: %s (HWCAP2: 0x%lx)" [FmtArg.str "baseline", FmtArg.ulong 0],
         Event.NewStringUTF 0 "baseline"] ∧
    ¬ ∃ (v : Nat) (p : LogPriority) (tag fmt : String) (args : List FmtArg),
        (Java_com_example_llamadroid_util_CpuFeatures_getBestTier 0 0 ⟨0, []⟩).2.trace
          = [Event.getauxval AuxType.AT_HWCAP2 v, Event.android_log_print p tag fmt args] := by
  have htrace :
      (Java_com_example_llamadroid_util_CpuFeatures_getBestTier 0 0 ⟨0, []⟩).2.trace
        = [Event.getauxval AuxType.AT_HWCAP2 0,
           Event.android_log_print LogPriority.ANDROID_LOG_INFO "CpuFeatures"
             "Selected CPU tier: %s (HWCAP2: 0x%lx)" [FmtArg.str "baseline", FmtArg.ulong 0],
           Event.NewStringUTF 0 "baseline"] := by
    decide
  refine ⟨htrace, ?_⟩
  rintro ⟨v, p, tag, fmt, args, h⟩
  rw [htrace] at h
  have hlen := congrArg List.length h
  simp at hlen

/-- C15, amended: each entry point does, in one call, exactly one read of the capability
mask and then exactly one log call, which carries the tag "CpuFeatures", the value that was
read and the result of the call (as the int 1 or 0 for the three queries, as the tier name
for `getBestTier`); the result is computed from the value that was read.  The three queries
make no other outside call.  `getBestTier` makes one more, after the log call:
`NewStringUTF` on the tier name, which creates the string it returns.  Nothing else changes:
the world after the call is the world before it with exactly these events appended. -/
theorem entry_points_outside_calls (env : JNIEnv) (clazz : jclass) (w : World) :
    (((Java_com_example_llamadroid_util_CpuFeatures_hasDotProd env clazz w).2
        = ⟨w.hwcap2, w.trace ++
            [Event.getauxval AuxType.AT_HWCAP2 w.hwcap2,
             Event.android_log_print LogPriority.ANDROID_LOG_INFO "CpuFeatures"
               "HWCAP2: 0x%lx, DotProd: %d"
               [FmtArg.ulong w.hwcap2,
                FmtArg.int
                  (if (Java_com_example_llamadroid_util_CpuFeatures_hasDotProd env clazz w).1 = true
                   then 1 else 0)]]⟩) ∧
      (Java_com_example_llamadroid_util_CpuFeatures_hasDotProd env clazz w).1
        = ((w.hwcap2 &&& HWCAP2_ASIMDDP) != 0)) ∧
    (((Java_com_example_llamadroid_util_CpuFeatures_hasArmV9 env clazz w).2
        = ⟨w.hwcap2, w.trace ++
            [Event.getauxval AuxType.AT_HWCAP2 w.hwcap2,
             Event.android_log_print LogPriority.ANDROID_LOG_INFO "CpuFeatures"
               "HWCAP2: 0x%lx, SVE2 (ARMv9): %d"
               [FmtArg.ulong w.hwcap2,
                FmtArg.int
                  (if (Java_com_example_llamadroid_util_CpuFeatures_hasArmV9 env clazz w).1 = true
                   then 1 else 0)]]⟩) ∧
      (Java_com_example_llamadroid_util_CpuFeatures_hasArmV9 env clazz w).1
        = ((w.hwcap2 &&& HWCAP2_SVE2) != 0)) ∧
    (((Java_com_example_llamadroid_util_CpuFeatures_hasI8mm env clazz w).2
        = ⟨w.hwcap2, w.trace ++
            [Event.getauxval AuxType.AT_HWCAP2 w.hwcap2,
             Event.android_log_print LogPriority.ANDROID_LOG_INFO "CpuFeatures"
               "HWCAP2: 0x%lx, I8MM: %d"
               [FmtArg.ulong w.hwcap2,
                FmtArg.int
                  (if (Java_com_example_llamadroid_util_CpuFeatures_hasI8mm env clazz w).1 = true
                   then 1 else 0)]]⟩) ∧
      (Java_com_example_llamadroid_util_CpuFeatures_hasI8mm env clazz w).1
        = ((w.hwcap2 &&& HWCAP2_I8MM) != 0)) ∧
    (((Java_com_example_llamadroid_util_CpuFeatures_getBestTier env clazz w).2
        = ⟨w.hwcap2, w.trace ++
            [Event.getauxval AuxType.AT_HWCAP2 w.hwcap2,
             Event.android_log_print LogPriority.ANDROID_LOG_INFO "CpuFeatures"
               "Selected CPU tier: %s (HWCAP2: 0x%lx)"
               [FmtArg.str (Java_com_example_llamadroid_util_CpuFeatures_getBestTier env clazz w).1,
                FmtArg.ulong w.hwcap2],
             Event.NewStringUTF env
               (Java_com_example_llamadroid_util_CpuFeatures_getBestTier env clazz w).1]⟩) ∧
      (Java_com_example_llamadroid_util_CpuFeatures_getBestTier env clazz w).1
        = (if (w.hwcap2 &&& HWCAP2_SVE2) != 0 then "armv9"
           else if (w.hwcap2 &&& HWCAP2_ASIMDDP) != 0 then "dotprod" else "baseline")) := by
  refine ⟨⟨?_, hasDotProd_fst env clazz w⟩, ⟨?_, hasArmV9_fst env clazz w⟩,
    ⟨?_, hasI8mm_fst env clazz w⟩, ⟨?_, getBestTier_fst env clazz w⟩⟩
  · rw [hasDotProd_fst]
    simp [Java_com_example_llamadroid_util_CpuFeatures_hasDotProd, getauxval, LOGI, LOG_TAG,
      boolToInt]
  · rw [hasArmV9_fst]
    simp [Java_com_example_llamadroid_util_CpuFeatures_hasArmV9, getauxval, LOGI, LOG_TAG,
      boolToInt]
  · rw [hasI8mm_fst]
    simp [Java_com_example_llamadroid_util_CpuFeatures_hasI8mm, getauxval, LOGI, LOG_TAG,
      boolToInt]
  · rw [getBestTier_fst]
    simp [Java_com_example_llamadroid_util_CpuFeatures_getBestTier, getauxval, LOGI, LOG_TAG,
      NewStringUTF]

end CpuFeatures
